import Mathlib

/-!
Shallow embedding of the soapjs soap-node-redis core, translated from:
  - src/src/redis.where.parser.ts  (RedisWhereParser)
  - src/src/redis.query-factory.ts (RedisQueryFactory)
  - src/src/redis.utils.ts         (RedisUtils.buildRedisUrl)
  - src/src/redis-cache-manager.ts (RedisCacheManager)

Values that the TypeScript code interpolates into templates are modelled as
strings (the spec stringifies scalars before substitution); a condition value
is either a single string or an array of strings, mirroring
`Scalar | Scalar[]`. JavaScript exceptions are modelled with `Except String`.
-/

/-- Model of the JavaScript `toUpperCase()` call on an operator name,
character by character (the combinator names this code upper-cases are
plain ASCII). -/
def jsToUpper (s : String) : String := String.mk (s.data.map Char.toUpper)

/-- A leaf-condition value: a scalar (already stringified) or an array of
scalars, mirroring the TypeScript `right` field of a `Condition`. -/
inductive CValue where
  | str (s : String)
  | arr (l : List String)
deriving DecidableEq, Repr

/-- Text produced when a value is interpolated into a template string:
a scalar interpolates verbatim, an array the way JavaScript stringifies
arrays (comma-joined). -/
def CValue.text : CValue → String
  | .str s => s
  | .arr l => String.intercalate "," l

/-- Applies `f` to the element list when the value is an array; a scalar
models the JavaScript TypeError raised by `right.map` on a non-array. -/
def CValue.mapArr (v : CValue) (f : List String → String) : Except String String :=
  match v with
  | .arr l => Except.ok (f l)
  | .str _ => Except.error "right.map is not a function"

/-- Input to `RedisWhereParser.parse`, covering every shape the TypeScript
dispatch distinguishes: the two falsy inputs (`null`, `undefined`), a
framework `Where` wrapper instance, a leaf condition (an object with a
`left` key), a nested condition (an object with a `conditions` key), and
any other object shape. The wrapper carries the node held in its `result`
field; `buildFn` records what the framework wrapper's `build()` capability
would produce (§3 of the spec describes this capability; the parser source
never invokes it). -/
inductive WhereInput where
  | null
  | undef
  | whereObj (result : WhereInput) (buildFn : Option WhereInput)
  | simpleCond (left : String) (operator : String) (right : CValue)
  | nestedCond (conditions : List WhereInput) (operator : String)
  | other

namespace RedisWhereParser

/-- Translation of `RedisWhereParser.parseSimpleCondition`
(src/src/redis.where.parser.ts lines 59-83): the switch over the operator
name, one output template per supported operator, and a thrown error for
any other operator. -/
def parseSimpleCondition (left operator : String) (right : CValue) :
    Except String String :=
  if operator = "eq" then
    Except.ok ("@" ++ left ++ ":\x7b" ++ right.text ++ "\x7d")
  else if operator = "ne" then
    Except.ok ("-@" ++ left ++ ":\x7b" ++ right.text ++ "\x7d")
  else if operator = "gt" then
    Except.ok ("@" ++ left ++ ":[(" ++ right.text ++ " +inf]")
  else if operator = "lt" then
    Except.ok ("@" ++ left ++ ":[-inf (" ++ right.text ++ ")]")
  else if operator = "gte" then
    Except.ok ("@" ++ left ++ ":[" ++ right.text ++ " +inf]")
  else if operator = "lte" then
    Except.ok ("@" ++ left ++ ":[-inf " ++ right.text ++ "]")
  else if operator = "in" then
    right.mapArr (fun l =>
      String.intercalate " | " (l.map (fun v => "@" ++ left ++ ":\x7b" ++ v ++ "\x7d")))
  else if operator = "nin" then
    right.mapArr (fun l =>
      String.intercalate " " (l.map (fun v => "-@" ++ left ++ ":\x7b" ++ v ++ "\x7d")))
  else if operator = "like" then
    Except.ok ("@" ++ left ++ ":/.*" ++ right.text ++ ".*/")
  else
    Except.error ("Unsupported operator " ++ operator)

mutual

/-- Translation of `RedisWhereParser.parse`
(src/src/redis.where.parser.ts lines 41-57): falsy input gives `*`, a
`Where` instance recurses on its `result` field, an object with a `left`
key is a leaf, an object with a `conditions` key is a nested condition,
anything else throws "Invalid condition format". -/
def parse : WhereInput → Except String String
  | .null => Except.ok "*"
  | .undef => Except.ok "*"
  | .whereObj result _ => parse result
  | .simpleCond left operator right => parseSimpleCondition left operator right
  | .nestedCond conditions operator =>
      (parseList conditions).map (fun parsed =>
        "(" ++ String.intercalate (" " ++ jsToUpper operator ++ " ") parsed ++ ")")
  | .other => Except.error "Invalid condition format"

/-- The `conditions.map((cond) => RedisWhereParser.parse(cond))` step of
`parseNestedCondition` (src/src/redis.where.parser.ts lines 89-90): a
thrown error in any element propagates, as a JavaScript exception would. -/
def parseList : List WhereInput → Except String (List String)
  | [] => Except.ok []
  | c :: cs => do
      let s ← parse c
      let ss ← parseList cs
      Except.ok (s :: ss)

end

end RedisWhereParser

/-- Translation of `FindParams` as consumed by
`RedisQueryFactory.createFindQuery`: an optional where input, an optional
sort mapping (field to direction, insertion order preserved), and
optional limit and offset numbers. -/
structure FindParams where
  whereC : Option WhereInput
  sort : Option (List (String × Int))
  limit : Option Int
  offset : Option Int

/-- Translation of `AggregationParams` as consumed by
`RedisQueryFactory.createAggregationQuery`. -/
structure AggregationParams where
  whereC : Option WhereInput
  groupBy : Option (List String)
  sum : Option String
  count : Option String
  average : Option String
  min : Option String
  max : Option String
  sort : Option (List (String × Int))

namespace RedisQueryFactory

/-- The `if (where) \x7b query.push(parse(where)) \x7d else \x7b query.push(*) \x7d`
step shared by the query builders (src/src/redis.query-factory.ts lines
37-41 and 91-95): the query-string token pushed after the command name and
index name. -/
def whereToken : Option WhereInput → Except String String
  | some w => RedisWhereParser.parse w
  | none => Except.ok "*"

/-- The find-query sort loop (src/src/redis.query-factory.ts lines 43-47):
one `SORTBY field ASC|DESC` clause per sort entry, in insertion order. -/
def findSortTokens : Option (List (String × Int)) → List String
  | some entries =>
      (entries.map (fun e => ["SORTBY", e.1, if e.2 = -1 then "DESC" else "ASC"])).flatten
  | none => []

/-- The find-query limit clause (src/src/redis.query-factory.ts lines
49-51): present exactly when `limit` is defined, with `offset || 0` as the
offset token. -/
def limitTokens (limit offset : Option Int) : List String :=
  match limit with
  | some l => ["LIMIT", toString (offset.getD 0), toString l]
  | none => []

/-- Translation of `RedisQueryFactory.createFindQuery`
(src/src/redis.query-factory.ts lines 33-54). A thrown parser error
propagates out of the builder. -/
def createFindQuery (params : FindParams) : Except String (List String) := do
  let w ← whereToken params.whereC
  Except.ok (["FT.SEARCH", "indexName", w]
    ++ findSortTokens params.sort ++ limitTokens params.limit params.offset)

/-- JavaScript truthiness of an optional string option, as used by the
`if (params.sum)` style guards of `createAggregationQuery`: absent and
empty-string values are falsy. -/
def truthy : Option String → Bool
  | some s => !s.isEmpty
  | none => false

/-- One guarded clause of the reduction block: emitted when the option is
truthy, with the clause built from the field value. -/
def reduceClause (o : Option String) (clause : String → List String) : List String :=
  match o with
  | some s => if s.isEmpty then [] else clause s
  | none => []

/-- The `REDUCE` block of `createAggregationQuery`
(src/src/redis.query-factory.ts lines 99-113): SUM, COUNT, AVG, MIN, MAX
guards in source order, each with its fixed alias; COUNT takes no field
and operand count 0, the others operand count 1 and the field. -/
def reduceTokens (sum count average minO maxO : Option String) : List String :=
  reduceClause sum (fun f => ["REDUCE", "SUM", "1", f, "AS", "totalSum"])
    ++ reduceClause count (fun _ => ["REDUCE", "COUNT", "0", "AS", "count"])
    ++ reduceClause average (fun f => ["REDUCE", "AVG", "1", f, "AS", "average"])
    ++ reduceClause minO (fun f => ["REDUCE", "MIN", "1", f, "AS", "min"])
    ++ reduceClause maxO (fun f => ["REDUCE", "MAX", "1", f, "AS", "max"])

/-- The `GROUPBY` block of `createAggregationQuery`
(src/src/redis.query-factory.ts lines 97-114): emitted only when
`groupBy` is present and non-empty, with the field count rendered as a
quoted numeral token, followed by the fields and the reduction block. -/
def groupTokens (p : AggregationParams) : List String :=
  match p.groupBy with
  | some g =>
      if g.length > 0 then
        ["GROUPBY", "\"" ++ toString g.length ++ "\""] ++ g
          ++ reduceTokens p.sum p.count p.average p.min p.max
      else []
  | none => []

/-- The aggregation sort loop (src/src/redis.query-factory.ts lines
116-120): `SORTBY, 1, field, ASC|DESC` per entry; note the plain `1`
token pushed between `SORTBY` and the field. -/
def aggSortTokens : Option (List (String × Int)) → List String
  | some entries =>
      (entries.map (fun e => ["SORTBY", "1", e.1, if e.2 = -1 then "DESC" else "ASC"])).flatten
  | none => []

/-- Translation of `RedisQueryFactory.createAggregationQuery`
(src/src/redis.query-factory.ts lines 88-123). -/
def createAggregationQuery (p : AggregationParams) : Except String (List String) := do
  let w ← whereToken p.whereC
  Except.ok (["FT.AGGREGATE", "indexName", w] ++ groupTokens p ++ aggSortTokens p.sort)

end RedisQueryFactory

/-- Translation of `RedisConfig` as read by `RedisUtils.buildRedisUrl`:
host and port lists plus optional credentials, TLS flag and database.
`none` models an absent (undefined) field. -/
structure RedisConfig where
  hosts : List String
  ports : List String
  iana : Bool
  user : Option String
  password : Option String
  database : Option String
deriving DecidableEq, Repr

namespace RedisUtils

/-- Translation of `RedisUtils.buildRedisUrl` (src/src/redis.utils.ts lines
9-38). The while loop that pushes the first port until the port list is as
long as the host list acts on `config.ports` itself whenever that list is
non-empty (the local `ports` binding aliases it), so the function returns
both the URL and the configuration as it stands after the call. -/
def buildRedisUrl (config : RedisConfig) : String × RedisConfig :=
  let scheme := if config.iana then "rediss://" else "redis://"
  let auth :=
    match config.user, config.password with
    | some u, some p => if !u.isEmpty && !p.isEmpty then u ++ ":" ++ p ++ "@" else ""
    | _, _ => ""
  let hosts := if config.hosts.isEmpty then ["localhost"] else config.hosts
  let ports0 := if config.ports.isEmpty then ["6379"] else config.ports
  let defaultPort := ports0.headD "6379"
  let ports := ports0 ++ List.replicate (hosts.length - ports0.length) defaultPort
  let hostsAndPorts := List.zipWith (fun h p => h ++ ":" ++ p) hosts ports
  let url := scheme ++ auth ++ String.intercalate "," hostsAndPorts
  let url :=
    match config.database with
    | some db => url ++ "/" ++ db
    | none => url
  let configAfter :=
    if config.ports.isEmpty then config
    else RedisConfig.mk config.hosts ports config.iana config.user config.password
      config.database
  (url, configAfter)

end RedisUtils

/-- A write command issued by the cache manager's `set`: a plain `SET` or
an expiring `SETEX`. -/
inductive RedisWrite where
  | setPlain (key value : String)
  | setEx (key : String) (ttl : Nat) (value : String)
deriving DecidableEq, Repr

namespace RedisCacheManager

/-- Translation of `RedisCacheManager.buildKey`
(src/src/redis-cache-manager.ts lines 112-114): prepend `prefix:` when the
configured prefix is truthy (non-empty). -/
def buildKey (pfx key : String) : String :=
  if pfx.isEmpty then key else pfx ++ ":" ++ key

/-- Translation of `RedisCacheManager.get`
(src/src/redis-cache-manager.ts lines 22-40). `clientGet` is the outcome
of `client.get` (an error, an absent value, or a stored string);
`jsonParse` is the outcome of `JSON.parse` on a stored string. Disabled
cache, client errors, absent or falsy values, and parse errors all resolve
to `none` (null); the return type records that the method never rejects. -/
def get {T : Type} (enabled : Bool) (clientGet : Except String (Option String))
    (jsonParse : String → Except String T) : Option T :=
  if !enabled then none
  else
    match clientGet with
    | .error _ => none
    | .ok none => none
    | .ok (some v) =>
        if v.isEmpty then none
        else
          match jsonParse v with
          | .error _ => none
          | .ok t => some t

/-- The write commands attempted by `RedisCacheManager.set`
(src/src/redis-cache-manager.ts lines 42-69). `serialize` is the outcome
of `JSON.stringify`; a serialization failure is caught by the inner
try/catch and nothing is stored. `ttl.getD defaultTtl` models
`ttl ?? this.defaultTtl`; a zero TTL selects the plain `SET` write
instead of `SETEX`. -/
def setWrites (enabled : Bool) (pfx key : String) (serialize : Except String String)
    (ttl : Option Nat) (defaultTtl : Nat) : List RedisWrite :=
  if !enabled then []
  else
    match serialize with
    | .error _ => []
    | .ok sv =>
        let fullKey := buildKey pfx key
        let ttlSeconds := ttl.getD defaultTtl
        if ttlSeconds = 0 then [RedisWrite.setPlain fullKey sv]
        else [RedisWrite.setEx fullKey ttlSeconds sv]

/-- How `RedisCacheManager.set` resolves
(src/src/redis-cache-manager.ts lines 42-69): the inner catch swallows
serialization errors, the outer catch swallows client write errors, so
the method always resolves (never an `Except.error`). -/
def setResult (enabled : Bool) (serialize : Except String String)
    (writeOutcome : Except String Unit) : Except String Unit :=
  if !enabled then Except.ok ()
  else
    match serialize with
    | .error _ => Except.ok ()
    | .ok _ =>
        match writeOutcome with
        | .error _ => Except.ok ()
        | .ok _ => Except.ok ()

/-- How `RedisCacheManager.delete` resolves
(src/src/redis-cache-manager.ts lines 71-82): the catch swallows client
errors, so the method always resolves. `delOutcome` is the outcome of
`client.del`. -/
def deleteResult (enabled : Bool) (delOutcome : Except String Nat) : Except String Unit :=
  if !enabled then Except.ok ()
  else
    match delOutcome with
    | .error _ => Except.ok ()
    | .ok _ => Except.ok ()

/-- The pattern `RedisCacheManager.clear` passes to `client.keys`
(src/src/redis-cache-manager.ts lines 90-91): the argument prefix when
truthy, else the configured prefix; `prefix:*` when that is truthy,
else `*`. -/
def clearPattern (selfPfx : String) (argPfx : Option String) : String :=
  let cp :=
    match argPfx with
    | some p => if p.isEmpty then selfPfx else p
    | none => selfPfx
  if cp.isEmpty then "*" else cp ++ ":*"

/-- The `DEL` commands attempted by `RedisCacheManager.clear`
(src/src/redis-cache-manager.ts lines 84-100). `keysOutcome` is the
outcome of `client.keys`; when it errors the catch fires and no `DEL` is
issued, and an empty key list issues no `DEL` either. -/
def clearWrites (enabled : Bool) (keysOutcome : Except String (List String)) :
    List (List String) :=
  if !enabled then []
  else
    match keysOutcome with
    | .error _ => []
    | .ok keys => if keys.isEmpty then [] else [["DEL"] ++ keys]

/-- How `RedisCacheManager.clear` resolves
(src/src/redis-cache-manager.ts lines 84-100): the catch swallows every
client error, so the method always resolves. -/
def clearResult (enabled : Bool) (keysOutcome : Except String (List String))
    (delOutcome : Except String Nat) : Except String Unit :=
  if !enabled then Except.ok ()
  else
    match keysOutcome with
    | .error _ => Except.ok ()
    | .ok keys =>
        if keys.isEmpty then Except.ok ()
        else
          match delOutcome with
          | .error _ => Except.ok ()
          | .ok _ => Except.ok ()

end RedisCacheManager

/-- Claim C1: compiling a leaf condition with an operator from the fixed
set yields exactly the template of the operator table, with the field
substituted after `@` and the value substituted verbatim: `eq` gives
`@field:{value}`, `ne` gives `-@field:{value}`, `gt` gives
`@field:[(value +inf]`, `lt` gives `@field:[-inf (value)]`, `gte` gives
`@field:[value +inf]`, `lte` gives `@field:[-inf value]`, `like` gives
`@field:/.*value.*/`, `in` gives the " | "-joined terms (empty string for
an empty array, a single separator-free term for one element), and `nin`
gives the space-joined negated terms. -/
theorem claim1_leaf_condition_templates :
    (∀ f v : String, RedisWhereParser.parse (.simpleCond f "eq" (.str v)) =
      Except.ok ("@" ++ f ++ ":\x7b" ++ v ++ "\x7d")) ∧
    (∀ f v : String, RedisWhereParser.parse (.simpleCond f "ne" (.str v)) =
      Except.ok ("-@" ++ f ++ ":\x7b" ++ v ++ "\x7d")) ∧
    (∀ f v : String, RedisWhereParser.parse (.simpleCond f "gt" (.str v)) =
      Except.ok ("@" ++ f ++ ":[(" ++ v ++ " +inf]")) ∧
    (∀ f v : String, RedisWhereParser.parse (.simpleCond f "lt" (.str v)) =
      Except.ok ("@" ++ f ++ ":[-inf (" ++ v ++ ")]")) ∧
    (∀ f v : String, RedisWhereParser.parse (.simpleCond f "gte" (.str v)) =
      Except.ok ("@" ++ f ++ ":[" ++ v ++ " +inf]")) ∧
    (∀ f v : String, RedisWhereParser.parse (.simpleCond f "lte" (.str v)) =
      Except.ok ("@" ++ f ++ ":[-inf " ++ v ++ "]")) ∧
    (∀ f v : String, RedisWhereParser.parse (.simpleCond f "like" (.str v)) =
      Except.ok ("@" ++ f ++ ":/.*" ++ v ++ ".*/")) ∧
    (∀ (f : String) (l : List String),
      RedisWhereParser.parse (.simpleCond f "in" (.arr l)) =
        Except.ok (String.intercalate " | "
          (l.map (fun v => "@" ++ f ++ ":\x7b" ++ v ++ "\x7d")))) ∧
    (∀ f : String, RedisWhereParser.parse (.simpleCond f "in" (.arr [])) =
      Except.ok "") ∧
    (∀ f v : String, RedisWhereParser.parse (.simpleCond f "in" (.arr [v])) =
      Except.ok ("@" ++ f ++ ":\x7b" ++ v ++ "\x7d")) ∧
    (∀ (f : String) (l : List String),
      RedisWhereParser.parse (.simpleCond f "nin" (.arr l)) =
        Except.ok (String.intercalate " "
          (l.map (fun v => "-@" ++ f ++ ":\x7b" ++ v ++ "\x7d")))) :=
  ⟨fun _ _ => rfl, fun _ _ => rfl, fun _ _ => rfl, fun _ _ => rfl, fun _ _ => rfl,
   fun _ _ => rfl, fun _ _ => rfl, fun _ _ => rfl, fun _ => rfl, fun _ _ => rfl,
   fun _ _ => rfl⟩

/-- Claim C2: compiling a condition group compiles each operand
recursively, joins the results with the upper-cased combinator surrounded
by single spaces, and wraps the join in parentheses; an empty group gives
`()`, a singleton group gives the wrapped operand, and nested groups
compile inside-out as in the spec example. -/
theorem claim2_group_compilation :
    (∀ op : String, RedisWhereParser.parse (.nestedCond [] op) = Except.ok "()") ∧
    (∀ (op : String) (c : WhereInput) (s : String),
      RedisWhereParser.parse c = Except.ok s →
      RedisWhereParser.parse (.nestedCond [c] op) = Except.ok ("(" ++ s ++ ")")) ∧
    (∀ (a b c : WhereInput) (sa sb sc : String),
      RedisWhereParser.parse a = Except.ok sa →
      RedisWhereParser.parse b = Except.ok sb →
      RedisWhereParser.parse c = Except.ok sc →
      RedisWhereParser.parse (.nestedCond [a, .nestedCond [b, c] "and"] "or") =
        Except.ok ("(" ++ sa ++ " OR (" ++ sb ++ " AND " ++ sc ++ "))")) ∧
    (∀ (cs : List WhereInput) (op : String) (ss : List String),
      RedisWhereParser.parseList cs = Except.ok ss →
      RedisWhereParser.parse (.nestedCond cs op) =
        Except.ok ("(" ++ String.intercalate (" " ++ jsToUpper op ++ " ") ss ++ ")")) := by
  refine ⟨?_, ?_, ?_, ?_⟩
  · intro op
    simp [RedisWhereParser.parse, RedisWhereParser.parseList, Except.map]
    rfl
  · intro op c s h
    simp [RedisWhereParser.parse, RedisWhereParser.parseList, h, Except.map,
      Bind.bind, Except.bind]
    rfl
  · intro a b c sa sb sc ha hb hc
    simp [RedisWhereParser.parse, RedisWhereParser.parseList, ha, hb, hc, Except.map,
      Bind.bind, Except.bind, String.intercalate, String.intercalate.go,
      String.append_assoc]
    rfl
  · intro cs op ss h
    simp [RedisWhereParser.parse, h, Except.map]

/-- Claim C2 witness: a singleton group around a concrete leaf compiles to
the parenthesized leaf. -/
theorem claim2_group_compilation_witness :
    RedisWhereParser.parse
        (.nestedCond [.simpleCond "a" "eq" (.str "1")] "and") =
      Except.ok "(@a:\x7b1\x7d)" :=
  claim2_group_compilation.2.1 "and" (.simpleCond "a" "eq" (.str "1")) "@a:\x7b1\x7d" rfl

/-- Claim C3: compiling the two falsy inputs, null and undefined, returns
the wildcard token `*`. -/
theorem claim3_null_and_undefined_give_wildcard :
    RedisWhereParser.parse .null = Except.ok "*" ∧
    RedisWhereParser.parse .undef = Except.ok "*" :=
  ⟨rfl, rfl⟩

/-- Claim C4: an input matching none of the recognized node shapes fails
with the invalid-condition-format error and no partial output, and a leaf
condition whose operator is outside the fixed set fails with the
unsupported-operator error carrying the operator name. -/
theorem claim4_error_handling :
    RedisWhereParser.parse .other = Except.error "Invalid condition format" ∧
    (∀ (f op : String) (v : CValue),
      op ∉ (["eq", "ne", "gt", "lt", "gte", "lte", "in", "nin", "like"] : List String) →
      RedisWhereParser.parse (.simpleCond f op v) =
        Except.error ("Unsupported operator " ++ op)) := by
  refine ⟨rfl, ?_⟩
  intro f op v h
  simp only [List.mem_cons, List.not_mem_nil, or_false, not_or] at h
  obtain ⟨h1, h2, h3, h4, h5, h6, h7, h8, h9⟩ := h
  simp [RedisWhereParser.parse, RedisWhereParser.parseSimpleCondition,
    h1, h2, h3, h4, h5, h6, h7, h8, h9]

/-- Claim C4 witness: the operator `regex` is outside the fixed set and a
leaf using it fails with the unsupported-operator error. -/
theorem claim4_error_handling_witness :
    RedisWhereParser.parse (.simpleCond "a" "regex" (.str "x")) =
      Except.error "Unsupported operator regex" :=
  claim4_error_handling.2 "a" "regex" (.str "x") (by decide)

/-- Claim C5 counterexample: a wrapper carrying both a build capability and
a result field is compiled from its result field, not from what build
would produce, so the claim that build() is invoked (and the output equals
compiling its result) is false at this input. -/
theorem claim5_counterexample :
    RedisWhereParser.parse
        (.whereObj (.simpleCond "a" "eq" (.str "1"))
          (some (.simpleCond "b" "eq" (.str "2")))) =
      Except.ok "@a:\x7b1\x7d" ∧
    RedisWhereParser.parse (.simpleCond "b" "eq" (.str "2")) =
      Except.ok "@b:\x7b2\x7d" ∧
    (Except.ok "@a:\x7b1\x7d" : Except String String) ≠ Except.ok "@b:\x7b2\x7d" := by
  refine ⟨rfl, rfl, ?_⟩
  intro h
  simp only [Except.ok.injEq] at h
  exact absurd h (by decide)

/-- Claim C5 (amended): when the compiler input is a wrapper, compilation
recurses on the node held in its result field, for every wrapper —
whether or not a build capability is present, build() is never invoked —
so the output equals compiling the wrapped result node directly. -/
theorem claim5_wrapper_unwraps_result :
    ∀ (r : WhereInput) (b : Option WhereInput),
      RedisWhereParser.parse (.whereObj r b) = RedisWhereParser.parse r :=
  fun _ _ => rfl

/-- Claim C6: the find-query builder appends a LIMIT clause — the token
LIMIT, the offset stringified with 0 as default, the limit stringified —
exactly when the limit is defined; a limit of zero counts as defined and
produces LIMIT 0 0, and an undefined limit appends no LIMIT clause even
when an offset is set. -/
theorem claim6_find_query_limit_clause :
    (∀ (p : FindParams) (l : Int) (w : String),
      p.limit = some l →
      RedisQueryFactory.whereToken p.whereC = Except.ok w →
      RedisQueryFactory.createFindQuery p =
        Except.ok (["FT.SEARCH", "indexName", w]
          ++ RedisQueryFactory.findSortTokens p.sort
          ++ ["LIMIT", toString (p.offset.getD 0), toString l])) ∧
    (∀ (p : FindParams) (w : String),
      p.limit = none →
      RedisQueryFactory.whereToken p.whereC = Except.ok w →
      RedisQueryFactory.createFindQuery p =
        Except.ok (["FT.SEARCH", "indexName", w]
          ++ RedisQueryFactory.findSortTokens p.sort)) ∧
    RedisQueryFactory.createFindQuery (FindParams.mk none none (some 0) none) =
      Except.ok ["FT.SEARCH", "indexName", "*", "LIMIT", "0", "0"] := by
  refine ⟨?_, ?_, rfl⟩
  · intro p l w hl hw
    simp [RedisQueryFactory.createFindQuery, hw, RedisQueryFactory.limitTokens, hl,
      Bind.bind, Except.bind]
  · intro p w hl hw
    simp [RedisQueryFactory.createFindQuery, hw, RedisQueryFactory.limitTokens, hl,
      Bind.bind, Except.bind]

/-- Claim C6 witness: limit 2 with offset 3 produces the clause
LIMIT 3 2, with no sort clauses in between. -/
theorem claim6_find_query_limit_clause_witness :
    RedisQueryFactory.createFindQuery (FindParams.mk none none (some 2) (some 3)) =
      Except.ok ["FT.SEARCH", "indexName", "*", "LIMIT", "3", "2"] :=
  (claim6_find_query_limit_clause.1 (FindParams.mk none none (some 2) (some 3))
    2 "*" rfl rfl).trans rfl

/-- Claim C7: REDUCE clauses appear only when a GROUPBY clause was emitted
(groupBy present and non-empty; an empty groupBy suppresses GROUPBY and
every REDUCE even when reduction fields are set), and the populated
reduction options are emitted in the fixed order SUM, COUNT, AVG, MIN,
MAX, each shaped REDUCE, OP, operand-count, [field], AS, alias with
operand count 0 and no field for COUNT, operand count 1 and the field
otherwise, under the fixed aliases totalSum, count, average, min, max. -/
theorem claim7_aggregation_reduce_clauses :
    (∀ (p : AggregationParams) (w : String),
      p.groupBy = none ∨ p.groupBy = some [] →
      RedisQueryFactory.whereToken p.whereC = Except.ok w →
      RedisQueryFactory.createAggregationQuery p =
        Except.ok (["FT.AGGREGATE", "indexName", w]
          ++ RedisQueryFactory.aggSortTokens p.sort)) ∧
    (∀ (p : AggregationParams) (g : List String) (w : String),
      p.groupBy = some g → g ≠ [] →
      RedisQueryFactory.whereToken p.whereC = Except.ok w →
      RedisQueryFactory.createAggregationQuery p =
        Except.ok (["FT.AGGREGATE", "indexName", w]
          ++ ["GROUPBY", "\"" ++ toString g.length ++ "\""] ++ g
          ++ RedisQueryFactory.reduceTokens p.sum p.count p.average p.min p.max
          ++ RedisQueryFactory.aggSortTokens p.sort)) ∧
    (∀ (s c a m M : String),
      s ≠ "" → c ≠ "" → a ≠ "" → m ≠ "" → M ≠ "" →
      RedisQueryFactory.reduceTokens (some s) (some c) (some a) (some m) (some M) =
        ["REDUCE", "SUM", "1", s, "AS", "totalSum",
         "REDUCE", "COUNT", "0", "AS", "count",
         "REDUCE", "AVG", "1", a, "AS", "average",
         "REDUCE", "MIN", "1", m, "AS", "min",
         "REDUCE", "MAX", "1", M, "AS", "max"]) ∧
    RedisQueryFactory.createAggregationQuery
        (AggregationParams.mk none (some []) (some "p") (some "f") none none none none) =
      Except.ok ["FT.AGGREGATE", "indexName", "*"] ∧
    RedisQueryFactory.createAggregationQuery
        (AggregationParams.mk none (some ["x"]) (some "p") (some "f") none none none none) =
      Except.ok ["FT.AGGREGATE", "indexName", "*", "GROUPBY", "\"1\"", "x",
        "REDUCE", "SUM", "1", "p", "AS", "totalSum",
        "REDUCE", "COUNT", "0", "AS", "count"] := by
  refine ⟨?_, ?_, ?_, rfl, rfl⟩
  · intro p w hg hw
    rcases hg with hg | hg <;>
      simp [RedisQueryFactory.createAggregationQuery, hw,
        RedisQueryFactory.groupTokens, hg, Bind.bind, Except.bind]
  · intro p g w hg hne hw
    have hpos : 0 < g.length := List.length_pos.mpr hne
    simp [RedisQueryFactory.createAggregationQuery, hw,
      RedisQueryFactory.groupTokens, hg, hpos, Bind.bind, Except.bind]
  · intro s c a m M hs hc ha hm hM
    simp [RedisQueryFactory.reduceTokens, RedisQueryFactory.reduceClause,
      String.isEmpty_iff, hs, hc, ha, hm, hM]

/-- Claim C7 witness: grouping by one field with SUM and COUNT options set
emits GROUPBY followed by the SUM clause before the COUNT clause. -/
theorem claim7_aggregation_reduce_clauses_witness :
    RedisQueryFactory.createAggregationQuery
        (AggregationParams.mk none (some ["x"]) (some "p") (some "f") none none none none) =
      Except.ok ["FT.AGGREGATE", "indexName", "*", "GROUPBY", "\"1\"", "x",
        "REDUCE", "SUM", "1", "p", "AS", "totalSum",
        "REDUCE", "COUNT", "0", "AS", "count"] :=
  (claim7_aggregation_reduce_clauses.2.1
    (AggregationParams.mk none (some ["x"]) (some "p") (some "f") none none none none)
    ["x"] "*" rfl (by decide) rfl).trans rfl

/-- Claim C8 counterexample: an aggregation spec sorting on field a
descending emits the plain token 1 between SORTBY and the field, so the
claimed output with the quoted token "1" (quote characters included) is
false at this input. -/
theorem claim8_counterexample :
    RedisQueryFactory.createAggregationQuery
        (AggregationParams.mk none none none none none none none (some [("a", -1)])) =
      Except.ok ["FT.AGGREGATE", "indexName", "*", "SORTBY", "1", "a", "DESC"] ∧
    ¬ (RedisQueryFactory.createAggregationQuery
        (AggregationParams.mk none none none none none none none (some [("a", -1)])) =
      Except.ok ["FT.AGGREGATE", "indexName", "*", "SORTBY", "\"1\"", "a", "DESC"]) := by
  refine ⟨rfl, ?_⟩
  intro h
  have h0 : RedisQueryFactory.createAggregationQuery
      (AggregationParams.mk none none none none none none none (some [("a", -1)])) =
      Except.ok ["FT.AGGREGATE", "indexName", "*", "SORTBY", "1", "a", "DESC"] := rfl
  have h2 := h0.symm.trans h
  simp only [Except.ok.injEq, List.cons.injEq] at h2
  exact absurd h2.2.2.2.2.1 (by decide)

/-- Claim C8 (amended): for each (field, direction) entry of the sort
mapping, the aggregation builder emits the clause SORTBY, the plain
numeral token 1 (no quote characters), the field, then DESC when the
direction is -1 and ASC otherwise. -/
theorem claim8_aggregation_sortby_shape :
    ∀ es : List (String × Int),
      RedisQueryFactory.createAggregationQuery
          (AggregationParams.mk none none none none none none none (some es)) =
        Except.ok (["FT.AGGREGATE", "indexName", "*"]
          ++ (es.map (fun e =>
              ["SORTBY", "1", e.1, if e.2 = -1 then "DESC" else "ASC"])).flatten) :=
  fun _ => rfl

/-- Claim C9: buildRedisUrl is not side-effect-free on its argument — for
every config with non-empty hosts and ports where hosts has more entries
than ports, the call pushes copies of the first port onto the ports list
until the lengths match, so afterwards the ports list is as long as the
hosts list, and every other config field is unchanged. -/
theorem claim9_build_url_pads_ports :
    ∀ c : RedisConfig, c.hosts ≠ [] → c.ports ≠ [] →
      c.ports.length < c.hosts.length →
      (RedisUtils.buildRedisUrl c).2.ports =
        c.ports ++ List.replicate (c.hosts.length - c.ports.length)
          (c.ports.headD "6379") ∧
      (RedisUtils.buildRedisUrl c).2.ports.length = c.hosts.length ∧
      (RedisUtils.buildRedisUrl c).2.hosts = c.hosts ∧
      (RedisUtils.buildRedisUrl c).2.iana = c.iana ∧
      (RedisUtils.buildRedisUrl c).2.user = c.user ∧
      (RedisUtils.buildRedisUrl c).2.password = c.password ∧
      (RedisUtils.buildRedisUrl c).2.database = c.database := by
  intro c h1 h2 h3
  have hh : c.hosts.isEmpty = false := by
    cases hl : c.hosts with
    | nil => exact absurd hl h1
    | cons a as => rfl
  have hp : c.ports.isEmpty = false := by
    cases hl : c.ports with
    | nil => exact absurd hl h2
    | cons a as => rfl
  refine ⟨?_, ?_, ?_, ?_, ?_, ?_, ?_⟩ <;>
    simp [RedisUtils.buildRedisUrl, hh, hp, List.length_append, List.length_replicate]
  omega

/-- Claim C9 witness: two hosts and one port — after the call the config
carries two copies of that port and all other fields are unchanged. -/
theorem claim9_build_url_pads_ports_witness :
    (RedisUtils.buildRedisUrl
        (RedisConfig.mk ["h1", "h2"] ["p"] false none none none)).2.ports =
      ["p", "p"] ∧
    (RedisUtils.buildRedisUrl
        (RedisConfig.mk ["h1", "h2"] ["p"] false none none none)).2.hosts =
      ["h1", "h2"] := by
  have h := claim9_build_url_pads_ports
    (RedisConfig.mk ["h1", "h2"] ["p"] false none none none)
    (by decide) (by decide) (by decide)
  exact ⟨h.1.trans rfl, h.2.2.1⟩

/-- Claim C10: no public cache-manager operation throws or rejects — get
resolves to null when the cache is disabled, when the client call errors,
when the stored value is absent, and when JSON parsing fails; set issues
no write at all when serialization fails and with TTL 0 issues the plain
non-expiring write; set, delete and clear resolve normally on every
client-error outcome, and clear issues no DEL when the key lookup
errors. -/
theorem claim10_cache_manager_never_rejects :
    (∀ (T : Type) (g : Except String (Option String)) (p : String → Except String T),
      RedisCacheManager.get false g p = none) ∧
    (∀ (T : Type) (e : String) (p : String → Except String T),
      RedisCacheManager.get true (Except.error e) p = none) ∧
    (∀ (T : Type) (p : String → Except String T),
      RedisCacheManager.get true (Except.ok none) p = none) ∧
    (∀ (T : Type) (v e : String) (p : String → Except String T),
      p v = Except.error e →
      RedisCacheManager.get true (Except.ok (some v)) p = none) ∧
    (∀ (enabled : Bool) (pfx key e : String) (ttl : Option Nat) (d : Nat),
      RedisCacheManager.setWrites enabled pfx key (Except.error e) ttl d = []) ∧
    (∀ (pfx key sv : String) (d : Nat),
      RedisCacheManager.setWrites true pfx key (Except.ok sv) (some 0) d =
        [RedisWrite.setPlain (RedisCacheManager.buildKey pfx key) sv]) ∧
    (∀ (enabled : Bool) (s : Except String String) (w : Except String Unit),
      RedisCacheManager.setResult enabled s w = Except.ok ()) ∧
    (∀ (enabled : Bool) (o : Except String Nat),
      RedisCacheManager.deleteResult enabled o = Except.ok ()) ∧
    (∀ (enabled : Bool) (k : Except String (List String)) (o : Except String Nat),
      RedisCacheManager.clearResult enabled k o = Except.ok ()) ∧
    (∀ e : String, RedisCacheManager.clearWrites true (Except.error e) = []) := by
  refine ⟨?_, ?_, ?_, ?_, ?_, ?_, ?_, ?_, ?_, ?_⟩
  · intro T g p; rfl
  · intro T e p; rfl
  · intro T p; rfl
  · intro T v e p h
    simp [RedisCacheManager.get, h]
  · intro enabled pfx key e ttl d
    cases enabled <;> rfl
  · intro pfx key sv d; rfl
  · intro enabled s w
    cases enabled <;> cases s <;> cases w <;> rfl
  · intro enabled o
    cases enabled <;> cases o <;> rfl
  · intro enabled k o
    cases enabled <;> cases k <;> cases o <;>
      simp [RedisCacheManager.clearResult]
  · intro e; rfl

/-- Claim C10 witness: a stored value whose JSON parse fails resolves to
null. -/
theorem claim10_cache_manager_never_rejects_witness :
    RedisCacheManager.get true (Except.ok (some "x"))
        (fun _ => (Except.error "bad" : Except String Nat)) = none :=
  claim10_cache_manager_never_rejects.2.2.2.1 Nat "x" "bad"
    (fun _ => Except.error "bad") rfl
